import Mathlib

/-!
Shallow embedding of the airtable-pdf-worker server (src/server.js).

The server exposes one route, POST /generate-pdf, which
1. checks the x-auth-token header against INTERNAL_AUTH_TOKEN,
2. validates that htmlContent, recordId and location are present and truthy,
3. races a pipeline (render HTML to PDF, write the file into the public
   directory, PATCH the Airtable record with the public URL) against a
   45-second timeout promise,
4. answers 200 on upload success and 500 on any error or timeout.

Pure data is modelled directly; the effectful parts (clock, rendering engine,
Airtable fetch, filesystem) are modelled by explicit environment records and
state passing, and the order of externally visible effects is recorded as an
event trace.  The JavaScript clock value Date.now() is a natural number of
milliseconds since the epoch; the server runs in a container with no TZ set,
so the local-time calendar of new Date() coincides with the UTC calendar.
-/

namespace PdfWorker

/-- One externally visible effect of a request, in the order it happens. -/
inductive Event where
  | contextOpened
  | contextClosed
  | fileWritten (name : String)
  | fileDeleted (name : String)
  | cleanupScheduled (name : String)
  | fetchIssued
  | responded (status : Nat)
deriving DecidableEq, Repr

/-- The serving directory: whether the public directory exists, and the set of
file names currently present in it.  A directory holds each name at most once,
so the contents are a finite set of names. -/
structure FS where
  dirExists : Bool
  files : Finset String
deriving DecidableEq

/-- Outcome of the puppeteer render (page.setContent + page.pdf) for a request:
either the produced PDF bytes or the message of the error thrown. -/
inductive RenderOutcome where
  | ok (pdf : List Nat)
  | err (msg : String)
deriving DecidableEq, Repr

/-- Outcome of the fetch PATCH call to the Airtable API: a 2xx response
(response.ok), a non-2xx response with its status and body text, or a
transport error (network failure, or the 15-second AbortController firing). -/
inductive FetchOutcome where
  | ok2xx
  | httpErr (status : Nat) (body : String)
  | transportErr (msg : String)
deriving DecidableEq, Repr

/-- Milliseconds per day, used to turn Date.now() into an epoch day count. -/
def msPerDay : Nat := 86400000

/-- Civil date (year, month, day) of an epoch day count, the standard
era/year-of-era computation used by calendar libraries; this is the calendar
arithmetic behind getFullYear/getMonth/getDate for non-negative times. -/
def civilOfDays (d : Nat) : Nat × Nat × Nat :=
  let z := d + 719468
  let era := z / 146097
  let doe := z % 146097
  let yoe := (doe - doe / 1460 + doe / 36524 - doe / 146096) / 365
  let y := yoe + era * 400
  let doy := doe - (365 * yoe + yoe / 4 - yoe / 100)
  let mp := (5 * doy + 2) / 153
  let day := doy - (153 * mp + 2) / 5 + 1
  let month := if mp < 10 then mp + 3 else mp - 9
  (if month ≤ 2 then y + 1 else y, month, day)

/-- String(n).padStart(2, "0") for the month and day components. -/
def pad2 (n : Nat) : String :=
  if n < 10 then "0" ++ toString n else toString n

/-- The dateStr local of generateFileName: year, zero-padded month and
zero-padded day of the current time, concatenated. -/
def dateStr (t : Nat) : String :=
  let c := civilOfDays (t / msPerDay)
  toString c.1 ++ pad2 c.2.1 ++ pad2 c.2.2

/-- generateFileName(location) from src/server.js, with the clock reading
passed explicitly: "Report-" + dateStr + "-" + location + "-" + Date.now()
+ ".pdf".  The two clock reads (new Date() and Date.now()) in the source
happen back to back; they are modelled as the same millisecond t. -/
def generateFileName (t : Nat) (location : String) : String :=
  "Report-" ++ dateStr t ++ "-" ++ location ++ "-" ++ toString t ++ ".pdf"

/-- cleanupFile(filePath, fileName) from src/server.js: if the file exists it
is unlinked, otherwise the call logs a skip and does nothing.  The whole body
is wrapped in try/catch in the source, so the function never throws; it is
modelled as a total function returning the new filesystem and the deletion
events that occurred. -/
def cleanupFile (filePath : String) (fs : FS) : FS × List Event :=
  if filePath ∈ fs.files then
    ({ fs with files := fs.files.erase filePath }, [Event.fileDeleted filePath])
  else
    (fs, [])

/-- generatePDFFromHTML(html) from src/server.js: opens a page on the shared
browser, renders, and closes the page in a finally block on both the success
and the error path.  The engine outcome is supplied by the environment; on an
engine error the function throws "PDF generation failed: " + message. -/
def generatePDFFromHTML (r : RenderOutcome) (html : String) :
    Except String (List Nat) × List Event :=
  match r with
  | RenderOutcome.ok pdf =>
      (Except.ok pdf, [Event.contextOpened, Event.contextClosed])
  | RenderOutcome.err m =>
      (Except.error ("PDF generation failed: " ++ m),
       [Event.contextOpened, Event.contextClosed])

/-- Environment of one uploadPDFToAirtable call: the configured public base
URL, the outcome of the Airtable fetch, and the clock reading at file-name
generation time. -/
structure UploadEnv where
  publicBaseUrl : String
  fetch : FetchOutcome
  nowMs : Nat
deriving DecidableEq

/-- The error message thrown on a non-2xx Airtable response. -/
def airtableErrMsg (status : Nat) (body : String) : String :=
  "Airtable API returned " ++ toString status ++ ": " ++ body

/-- uploadPDFToAirtable(pdfBuffer, recordId, location) from src/server.js.
It generates the file name from the location and the clock, creates the
public directory if absent, writes the buffer (whatever its size) to the
file, issues the PATCH to Airtable, and then either schedules the deferred
cleanup and returns true (2xx) or, in the catch block, deletes the file
immediately and rethrows (non-2xx or transport error).  The recordId is sent
in the PATCH body but takes no part in the file name. -/
def uploadPDFToAirtable (env : UploadEnv) (pdfBuffer : List Nat)
    (recordId location : String) (fs : FS) :
    Except String Bool × FS × List Event :=
  let fileName := generateFileName env.nowMs location
  let fs1 : FS := { dirExists := true, files := insert fileName fs.files }
  match env.fetch with
  | FetchOutcome.ok2xx =>
      (Except.ok true, fs1,
       [Event.fileWritten fileName, Event.fetchIssued,
        Event.cleanupScheduled fileName])
  | FetchOutcome.httpErr s b =>
      let c := cleanupFile fileName fs1
      (Except.error (airtableErrMsg s b), c.1,
       [Event.fileWritten fileName, Event.fetchIssued] ++ c.2)
  | FetchOutcome.transportErr m =>
      let c := cleanupFile fileName fs1
      (Except.error m, c.1,
       [Event.fileWritten fileName, Event.fetchIssued] ++ c.2)

/-- The request body and header of one POST /generate-pdf call.  A field
absent from the JSON body is none; the x-auth-token header is none when the
caller did not send it. -/
structure Request where
  xAuthToken : Option String
  htmlContent : Option String
  recordId : Option String
  location : Option String
deriving DecidableEq

/-- Environment of one request: the configured INTERNAL_AUTH_TOKEN (none when
the variable is unset), the upload environment, the render outcome, and the
point at which the 45-second overall deadline fires, measured as the number
of pipeline events that have already happened; none means the pipeline
settles before the deadline. -/
structure Env where
  internalAuthToken : Option String
  upload : UploadEnv
  render : RenderOutcome
  deadlinePos : Option Nat
deriving DecidableEq

/-- The HTTP response sent to the client. -/
structure Response where
  status : Nat
  body : String
deriving DecidableEq, Repr

/-- JavaScript truthiness of an optional string field: !x is true exactly
when the field is absent or the empty string. -/
def falsy : Option String → Bool
  | none => true
  | some s => s.isEmpty

/-- The message of the Error rejected by the 45-second timeout promise. -/
def timeoutMsg : String := "PDF generation timeout: exceeded 45 seconds"

/-- The generatePromise body of the /generate-pdf handler: render, then
upload; 200 on success, 500 with the thrown message on any error.  Returns
the response it settles with, the final filesystem, and its event trace. -/
def pipeline (env : Env) (html recordId location : String) (fs : FS) :
    Response × FS × List Event :=
  match generatePDFFromHTML env.render html with
  | (Except.error m, ev) => ({ status := 500, body := m }, fs, ev)
  | (Except.ok pdf, ev) =>
      match uploadPDFToAirtable env.upload pdf recordId location fs with
      | (Except.ok true, fs2, ev2) =>
          ({ status := 200, body := "PDF generated and attached successfully." },
           fs2, ev ++ ev2)
      | (Except.ok false, fs2, ev2) =>
          ({ status := 500, body := "Failed to upload PDF to Airtable." },
           fs2, ev ++ ev2)
      | (Except.error m, fs2, ev2) =>
          ({ status := 500, body := m }, fs2, ev ++ ev2)

/-- The POST /generate-pdf handler from src/server.js: auth check, field
validation, then Promise.race between the pipeline and the 45-second timeout.
Promise.race only decides which settlement the handler observes; it does not
cancel the loser, so when the deadline fires mid-pipeline the timeout
response is sent and the remaining pipeline events still happen afterwards
in the background, which is why the final filesystem is the pipeline's in
both branches. -/
def handler (env : Env) (req : Request) (fs : FS) :
    Response × FS × List Event :=
  if req.xAuthToken ≠ env.internalAuthToken then
    ({ status := 401, body := "Unauthorized" }, fs, [Event.responded 401])
  else if falsy req.htmlContent || falsy req.recordId || falsy req.location then
    ({ status := 400,
       body := "Missing required fields: htmlContent, recordId, and location" },
     fs, [Event.responded 400])
  else
    let p := pipeline env (req.htmlContent.getD "") (req.recordId.getD "")
      (req.location.getD "") fs
    match env.deadlinePos with
    | some k =>
        if k < p.2.2.length then
          ({ status := 500, body := timeoutMsg }, p.2.1,
           p.2.2.take k ++ [Event.responded 500] ++ p.2.2.drop k)
        else
          (p.1, p.2.1, p.2.2 ++ [Event.responded p.1.status])
    | none =>
        (p.1, p.2.1, p.2.2 ++ [Event.responded p.1.status])

/-- Index of the first event satisfying p, counting from the front. -/
def firstIdx (p : Event → Bool) : List Event → Option Nat
  | [] => none
  | e :: rest => if p e then some 0 else (firstIdx p rest).map (· + 1)

/-- Whether an event is the client response. -/
def isResponded : Event → Bool
  | Event.responded _ => true
  | _ => false

/-- Whether the deletion of file fn occurs strictly before the client
response in the trace ev. -/
def deletedBeforeResponse (ev : List Event) (fn : String) : Bool :=
  match firstIdx (fun e => decide (e = Event.fileDeleted fn)) ev,
        firstIdx isResponded ev with
  | some i, some j => decide (i < j)
  | _, _ => false

/-- The events of a trace that happen strictly after the client response. -/
def postResponseEvents (ev : List Event) : List Event :=
  match firstIdx isResponded ev with
  | some j => ev.drop (j + 1)
  | none => []

/-- The browser handle as the engine-pool claims see it: its liveness flag,
plus an identifier distinguishing launches. -/
structure Browser where
  id : Nat
  alive : Bool
deriving DecidableEq, Repr

/-- puppeteer.launch always yields a live browser process. -/
def launchBrowser (fresh : Nat) : Browser :=
  { id := fresh, alive := true }

/-- getBrowser() from src/server.js over an explicit browserInstance state:
if the instance is unset a browser is launched and stored, otherwise the
stored instance is returned as is.  There is no liveness test anywhere in the
path that returns an existing instance.  fresh is the identifier a new launch
would receive. -/
def getBrowser (st : Option Browser) (fresh : Nat) : Browser × Option Browser :=
  match st with
  | none => (launchBrowser fresh, some (launchBrowser fresh))
  | some b => (b, some b)

/-- Module-level state of the browser pool for the interleaving model:
the browserInstance variable (an identifier, or none), a source of fresh
identifiers, and the list of engine processes launched so far (none of which
is ever closed during request handling). -/
structure PoolState where
  browserInstance : Option Nat
  nextId : Nat
  launched : List Nat
deriving DecidableEq, Repr

/-- Progress of one getBrowser() call.  The await on puppeteer.launch splits
the call in two steps: the null check (which starts a launch when the
instance is unset) and, later, the assignment of the launched browser to
browserInstance. -/
inductive CallPhase where
  | notStarted
  | launching (id : Nat)
  | done (id : Nat)
deriving DecidableEq, Repr

/-- One scheduler step of a getBrowser() call: the null check either adopts
the stored instance or begins a launch (the engine process comes into
existence here), and a launching call then assigns its browser to
browserInstance and returns it. -/
def stepCall (s : PoolState) (c : CallPhase) : PoolState × CallPhase :=
  match c with
  | CallPhase.notStarted =>
      match s.browserInstance with
      | some b => (s, CallPhase.done b)
      | none =>
          ({ s with nextId := s.nextId + 1, launched := s.launched ++ [s.nextId] },
           CallPhase.launching s.nextId)
  | CallPhase.launching i =>
      ({ s with browserInstance := some i }, CallPhase.done i)
  | CallPhase.done i => (s, CallPhase.done i)

/-- Run two interleaved getBrowser() calls A and B under a schedule: false
steps call A, true steps call B. -/
def runSched : List Bool → PoolState × CallPhase × CallPhase →
    PoolState × CallPhase × CallPhase
  | [], st => st
  | b :: rest, (s, ca, cb) =>
      if b then
        let r := stepCall s cb
        runSched rest (r.1, ca, r.2)
      else
        let r := stepCall s ca
        runSched rest (r.1, r.2, cb)

/-- The pool state at process start: no instance, nothing launched. -/
def initPool : PoolState :=
  { browserInstance := none, nextId := 0, launched := [] }

/-- One getBrowser() call run to completion without interleaving: both of
its steps happen atomically. -/
def getBrowserAtomic (s : PoolState) : Nat × PoolState :=
  match s.browserInstance with
  | some b => (b, s)
  | none =>
      (s.nextId,
       { browserInstance := some s.nextId, nextId := s.nextId + 1,
         launched := s.launched ++ [s.nextId] })

/-- n successive non-overlapping getBrowser() calls: the list of returned
identifiers and the final pool state. -/
def iterCalls : Nat → PoolState → List Nat × PoolState
  | 0, s => ([], s)
  | n + 1, s =>
      let r := getBrowserAtomic s
      let rest := iterCalls n r.2
      (r.1 :: rest.1, rest.2)

/-- Claim C9: a request whose x-auth-token header differs from the configured
token is answered 401 Unauthorized before anything else happens: the
filesystem is untouched and the only event is the response, so no input
validation, rendering, file write or upload occurs. -/
theorem c9_unauthorized_before_core (env : Env) (req : Request) (fs : FS)
    (h : req.xAuthToken ≠ env.internalAuthToken) :
    handler env req fs =
      ({ status := 401, body := "Unauthorized" }, fs, [Event.responded 401]) := by
  simp [handler, h]

/-- Witness for C9: a concrete request with the wrong token is rejected with
401 and no other effect. -/
theorem c9_witness :
    handler
      ⟨some "tok", ⟨"https://x", FetchOutcome.ok2xx, 0⟩, RenderOutcome.ok [], none⟩
      ⟨some "bad", some "<p>ok</p>", some "rec1", some "siteA"⟩ ⟨false, ∅⟩ =
      ({ status := 401, body := "Unauthorized" }, ⟨false, ∅⟩, [Event.responded 401]) :=
  c9_unauthorized_before_core _ _ _ (by decide)

/-- Counterexample for C4: the claim says the label field is optional, but a
request with the right token, a non-empty htmlContent and a recordId whose
location field is absent is rejected with the 400 missing-fields response. -/
theorem c4_counterexample_location_required :
    (handler
      ⟨some "tok", ⟨"https://x", FetchOutcome.ok2xx, 1700000000000⟩,
        RenderOutcome.ok [37], none⟩
      ⟨some "tok", some "<p>ok</p>", some "rec1", none⟩ ⟨false, ∅⟩).1 =
      { status := 400,
        body := "Missing required fields: htmlContent, recordId, and location" } := by
  decide

/-- Claim C4 (amended): for every authenticated request, an absent or empty
htmlContent, recordId or location field yields the immediate 400
missing-fields failure with the filesystem untouched and no event other than
the response, so no context is acquired and no file is written; the location
field is required like the other two, and its absence does cause rejection. -/
theorem c4_validation_rejects_missing_fields (env : Env) (req : Request) (fs : FS)
    (hAuth : req.xAuthToken = env.internalAuthToken)
    (hBad : falsy req.htmlContent = true ∨ falsy req.recordId = true ∨
      falsy req.location = true) :
    handler env req fs =
      ({ status := 400,
         body := "Missing required fields: htmlContent, recordId, and location" },
       fs, [Event.responded 400]) := by
  have h2 : (falsy req.htmlContent || falsy req.recordId || falsy req.location) = true := by
    rcases hBad with h | h | h <;> simp [h]
  simp [handler, hAuth, h2]

/-- Witness for C4: a concrete authenticated request with empty htmlContent
is rejected with 400 and no other effect. -/
theorem c4_witness :
    handler
      ⟨some "tok", ⟨"https://x", FetchOutcome.ok2xx, 0⟩, RenderOutcome.ok [], none⟩
      ⟨some "tok", some "", some "rec1", some "siteA"⟩ ⟨false, ∅⟩ =
      ({ status := 400,
         body := "Missing required fields: htmlContent, recordId, and location" },
       ⟨false, ∅⟩, [Event.responded 400]) :=
  c4_validation_rejects_missing_fields _ _ _ (by decide) (Or.inl (by decide))

/-- Claim C8: cleanupFile is idempotent and deleting an already-absent file
is a no-op: it never raises an error (it is a total function into the new
filesystem, mirroring the catch-all in the source), running it twice leaves
the same filesystem as running it once, and on an absent file it changes
nothing and deletes nothing. -/
theorem c8_cleanup_idempotent (p : String) (fs : FS) :
    (cleanupFile p (cleanupFile p fs).1).1 = (cleanupFile p fs).1
    ∧ (p ∉ fs.files → cleanupFile p fs = (fs, [])) := by
  constructor
  · by_cases h : p ∈ fs.files
    · simp [cleanupFile, h, Finset.not_mem_erase]
    · simp [cleanupFile, h]
  · intro h
    simp [cleanupFile, h]

/-- Witness for C8: deleting a file from an empty serving directory is a
no-op with no deletion event. -/
theorem c8_witness :
    cleanupFile "a.pdf" ⟨true, ∅⟩ = (⟨true, ∅⟩, []) :=
  (c8_cleanup_idempotent "a.pdf" ⟨true, ∅⟩).2 (by decide)

/-- Counterexample for C7: the claim says a dead engine instance is never
handed out, but getBrowser on a state holding a dead browser returns that
dead browser and leaves it in place instead of removing and respawning it. -/
theorem c7_counterexample_dead_instance_handed_out :
    (getBrowser (some { id := 0, alive := false }) 1).1.alive = false
    ∧ (getBrowser (some { id := 0, alive := false }) 1).2 =
        some { id := 0, alive := false } := by
  decide

/-- Claim C7 (amended): the pool performs no health check before handing out
the engine: getBrowser returns the stored instance unchanged whatever its
liveness, never removing or respawning it; only when no instance exists at
all is a (live) browser launched. -/
theorem c7_no_health_check (b : Browser) (fresh : Nat) :
    getBrowser (some b) fresh = (b, some b)
    ∧ (getBrowser none fresh).1 = launchBrowser fresh
    ∧ (launchBrowser fresh).alive = true :=
  ⟨rfl, rfl, rfl⟩

/-- Counterexample for C10: two getBrowser() calls that overlap the launch
await both pass the null check, so the schedule A-check, B-check, A-assign,
B-assign launches two engine processes: caller A finishes with instance 0,
caller B with instance 1, and browserInstance ends as instance 1, so the
instance launched first has been replaced (without being closed) and callers
hold different instances, violating the at-most-one-instance claim. -/
theorem c10_counterexample_overlapping_calls :
    runSched [false, true, false, true]
        (initPool, CallPhase.notStarted, CallPhase.notStarted) =
      ({ browserInstance := some 1, nextId := 2, launched := [0, 1] },
       CallPhase.done 0, CallPhase.done 1)
    ∧ (runSched [false, true, false, true]
        (initPool, CallPhase.notStarted, CallPhase.notStarted)).1.launched.length = 2 := by
  decide

theorem iterCalls_from_launched (b : Nat) :
    ∀ (n : Nat) (s : PoolState), s.browserInstance = some b →
      iterCalls n s = (List.replicate n b, s)
  | 0, _, _ => rfl
  | n + 1, s, h => by
      simp [iterCalls, getBrowserAtomic, h,
        iterCalls_from_launched b n s h, List.replicate_succ]

/-- Claim C10 (amended): when getBrowser() calls do not overlap the launch
await, the claim holds: starting from the initial state, any positive number
of successive calls launches exactly one engine instance (identifier 0), every
call returns that same instance, and browserInstance still holds it at the
end, never replaced or closed.  Overlapping calls can instead each launch an
instance, as the counterexample shows. -/
theorem c10_single_instance_when_sequential (n : Nat) :
    iterCalls (n + 1) initPool =
      (List.replicate (n + 1) 0,
       { browserInstance := some 0, nextId := 1, launched := [0] }) := by
  have h := iterCalls_from_launched 0 n
    { browserInstance := some 0, nextId := 1, launched := [0] } rfl
  simp [iterCalls, getBrowserAtomic, initPool, h, List.replicate_succ]

/-- Counterexample for C6: the claim says an empty byte payload is rejected
before writing and no file is created, but uploadPDFToAirtable with the empty
payload writes the file all the same: the first event is the file write and
the file is present in the resulting serving directory. -/
theorem c6_counterexample_empty_payload_written :
    (uploadPDFToAirtable ⟨"https://x", FetchOutcome.ok2xx, 1700000000000⟩ []
        "rec1" "siteA" ⟨false, ∅⟩).2.2.head? =
      some (Event.fileWritten "Report-20231114-siteA-1700000000000.pdf")
    ∧ "Report-20231114-siteA-1700000000000.pdf" ∈
        (uploadPDFToAirtable ⟨"https://x", FetchOutcome.ok2xx, 1700000000000⟩ []
          "rec1" "siteA" ⟨false, ∅⟩).2.1.files := by
  decide

/-- Claim C6 (amended): the artifact-write step performs no validation of the
byte payload: for every payload, empty included, the first effect is the file
write into the serving directory, and the directory exists afterwards because
it is created when absent. -/
theorem c6_no_payload_validation (env : UploadEnv) (pdfBuffer : List Nat)
    (recordId location : String) (fs : FS) :
    (uploadPDFToAirtable env pdfBuffer recordId location fs).2.2.head? =
      some (Event.fileWritten (generateFileName env.nowMs location))
    ∧ (uploadPDFToAirtable env pdfBuffer recordId location fs).2.1.dirExists = true := by
  obtain ⟨u, f, t⟩ := env
  cases f <;> simp [uploadPDFToAirtable, cleanupFile, Finset.mem_insert_self]

/-- Claim C1 (code evaluation at the failing input): two jobs whose file
names are generated in the same millisecond 1700000000000 with the same
location get the identical file name, whatever their recordIds, because
generateFileName uses only the date, the location and the millisecond clock;
so the names are not distinct and not derived from the record identifier. -/
theorem c1_same_ms_same_name :
    generateFileName 1700000000000 "siteA" =
      "Report-20231114-siteA-1700000000000.pdf"
    ∧ (uploadPDFToAirtable ⟨"https://x", FetchOutcome.ok2xx, 1700000000000⟩ [37]
        "recA" "siteA" ⟨true, ∅⟩).2.2.head? =
      some (Event.fileWritten "Report-20231114-siteA-1700000000000.pdf")
    ∧ (uploadPDFToAirtable ⟨"https://x", FetchOutcome.ok2xx, 1700000000000⟩ [42]
        "recB" "siteA" ⟨true, ∅⟩).2.2.head? =
      some (Event.fileWritten "Report-20231114-siteA-1700000000000.pdf") := by
  decide

theorem pipeline_upload_httpErr (env : Env) (html r l : String) (fs : FS)
    (pdf : List Nat) (hRender : env.render = RenderOutcome.ok pdf)
    (s : Nat) (b : String) (hf : env.upload.fetch = FetchOutcome.httpErr s b)
    (hFresh : generateFileName env.upload.nowMs l ∉ fs.files) :
    pipeline env html r l fs =
      ({ status := 500, body := airtableErrMsg s b },
       { dirExists := true, files := fs.files },
       [Event.contextOpened, Event.contextClosed,
        Event.fileWritten (generateFileName env.upload.nowMs l),
        Event.fetchIssued,
        Event.fileDeleted (generateFileName env.upload.nowMs l)]) := by
  simp [pipeline, generatePDFFromHTML, uploadPDFToAirtable, hRender, hf,
    cleanupFile, Finset.mem_insert_self, Finset.erase_insert hFresh]

theorem pipeline_upload_transportErr (env : Env) (html r l : String) (fs : FS)
    (pdf : List Nat) (hRender : env.render = RenderOutcome.ok pdf)
    (m : String) (hf : env.upload.fetch = FetchOutcome.transportErr m)
    (hFresh : generateFileName env.upload.nowMs l ∉ fs.files) :
    pipeline env html r l fs =
      ({ status := 500, body := m },
       { dirExists := true, files := fs.files },
       [Event.contextOpened, Event.contextClosed,
        Event.fileWritten (generateFileName env.upload.nowMs l),
        Event.fetchIssued,
        Event.fileDeleted (generateFileName env.upload.nowMs l)]) := by
  simp [pipeline, generatePDFFromHTML, uploadPDFToAirtable, hRender, hf,
    cleanupFile, Finset.mem_insert_self, Finset.erase_insert hFresh]

/-- Claim C3: the handler answers 200 only when the Airtable PATCH returned a
2xx response; every other outcome, a failed upload after a successful render
included, is a non-200 failure response. -/
theorem c3_success_only_on_2xx (env : Env) (req : Request) (fs : FS) :
    (handler env req fs).1.status = 200 → env.upload.fetch = FetchOutcome.ok2xx := by
  intro h
  by_cases h1 : req.xAuthToken ≠ env.internalAuthToken
  · simp [handler, h1] at h
  · by_cases h2 : (falsy req.htmlContent || falsy req.recordId ||
      falsy req.location) = true
    · simp [handler, h1, h2] at h
    · rcases hf : env.upload.fetch with _ | ⟨s, b⟩ | m
      · rfl
      all_goals (
        rcases hr : env.render with pdf | m2 <;>
          rcases hd : env.deadlinePos with _ | k <;>
          simp [handler, pipeline, generatePDFFromHTML, uploadPDFToAirtable,
            cleanupFile, Finset.mem_insert_self, h1, h2, hf, hr, hd] at h <;>
          (try split at h) <;> simp_all)

/-- Witness for C3: a concrete fully-successful run answers 200, and its
environment indeed has a 2xx Airtable response. -/
theorem c3_witness :
    (handler
      ⟨some "tok", ⟨"https://x", FetchOutcome.ok2xx, 1700000000000⟩,
        RenderOutcome.ok [37], none⟩
      ⟨some "tok", some "<p>ok</p>", some "rec1", some "siteA"⟩ ⟨false, ∅⟩).1.status = 200
    ∧ (⟨some "tok", ⟨"https://x", FetchOutcome.ok2xx, 1700000000000⟩,
        RenderOutcome.ok [37], none⟩ : Env).upload.fetch = FetchOutcome.ok2xx :=
  ⟨by decide,
   c3_success_only_on_2xx
     ⟨some "tok", ⟨"https://x", FetchOutcome.ok2xx, 1700000000000⟩,
       RenderOutcome.ok [37], none⟩
     ⟨some "tok", some "<p>ok</p>", some "rec1", some "siteA"⟩ ⟨false, ∅⟩
     (by decide)⟩

/-- Counterexample for C2: when the 45-second deadline fires while the upload
is in flight and the upload then fails, the file deletion happens after the
client response, not before it: the trace puts the responded event at
position 4 and the deletion at position 5, so deletedBeforeResponse is
false even though the upload failed and the job is an error. -/
theorem c2_counterexample_deletion_after_response :
    (handler
      ⟨some "tok", ⟨"https://x", FetchOutcome.httpErr 422 "err", 1700000000000⟩,
        RenderOutcome.ok [37], some 4⟩
      ⟨some "tok", some "<p>ok</p>", some "rec1", some "siteA"⟩ ⟨false, ∅⟩).2.2 =
      [Event.contextOpened, Event.contextClosed,
       Event.fileWritten "Report-20231114-siteA-1700000000000.pdf",
       Event.fetchIssued, Event.responded 500,
       Event.fileDeleted "Report-20231114-siteA-1700000000000.pdf"]
    ∧ deletedBeforeResponse
        (handler
          ⟨some "tok", ⟨"https://x", FetchOutcome.httpErr 422 "err", 1700000000000⟩,
            RenderOutcome.ok [37], some 4⟩
          ⟨some "tok", some "<p>ok</p>", some "rec1", some "siteA"⟩ ⟨false, ∅⟩).2.2
        "Report-20231114-siteA-1700000000000.pdf" = false := by
  decide

/-- Claim C2 (amended): for every job whose upload call fails (non-2xx
response or transport error, the 15-second upload abort included), the job's
result is a 500 failure, never a success, and the artifact file is absent
from the serving directory once the job has run its course; when the overall
deadline has not fired the deletion moreover happens before the client
response is sent, while a deadline firing mid-request sends the timeout
response first and the deletion completes in the background afterwards. -/
theorem c2_upload_failure_deletes_artifact (env : Env) (req : Request) (fs : FS)
    (hAuth : req.xAuthToken = env.internalAuthToken)
    (hH : falsy req.htmlContent = false) (hR : falsy req.recordId = false)
    (hL : falsy req.location = false)
    (pdf : List Nat) (hRender : env.render = RenderOutcome.ok pdf)
    (hFetch : env.upload.fetch ≠ FetchOutcome.ok2xx)
    (hFresh : generateFileName env.upload.nowMs (req.location.getD "") ∉ fs.files) :
    (handler env req fs).1.status = 500
    ∧ generateFileName env.upload.nowMs (req.location.getD "") ∉
        (handler env req fs).2.1.files
    ∧ (env.deadlinePos = none →
        deletedBeforeResponse (handler env req fs).2.2
          (generateFileName env.upload.nowMs (req.location.getD "")) = true) := by
  have hnn : ¬ req.xAuthToken ≠ env.internalAuthToken := by simp [hAuth]
  have hval : (falsy req.htmlContent || falsy req.recordId ||
      falsy req.location) = false := by
    simp [hH, hR, hL]
  have hp : pipeline env (req.htmlContent.getD "") (req.recordId.getD "")
      (req.location.getD "") fs =
      ({ status := 500,
         body := match env.upload.fetch with
           | FetchOutcome.httpErr s b => airtableErrMsg s b
           | FetchOutcome.transportErr m => m
           | FetchOutcome.ok2xx => "" },
       { dirExists := true, files := fs.files },
       [Event.contextOpened, Event.contextClosed,
        Event.fileWritten (generateFileName env.upload.nowMs (req.location.getD "")),
        Event.fetchIssued,
        Event.fileDeleted (generateFileName env.upload.nowMs (req.location.getD ""))]) := by
    rcases hf : env.upload.fetch with _ | ⟨s, b⟩ | m
    · exact absurd hf hFetch
    · rw [pipeline_upload_httpErr env _ _ _ fs pdf hRender s b hf hFresh]
    · rw [pipeline_upload_transportErr env _ _ _ fs pdf hRender m hf hFresh]
  rcases hd : env.deadlinePos with _ | k
  · refine ⟨?_, ?_, fun _ => ?_⟩ <;>
      simp [handler, hnn, hval, hd, hp, hFresh,
        deletedBeforeResponse, firstIdx, isResponded]
  · refine ⟨?_, ?_, fun hcon => ?_⟩
    · simp only [handler, if_neg hnn, hval, Bool.false_eq_true, if_false, hd, hp]
      split <;> rfl
    · simp only [handler, if_neg hnn, hval, Bool.false_eq_true, if_false, hd, hp]
      split <;> simpa using hFresh
    · exact Option.noConfusion hcon

/-- Witness for C2 (amended): a concrete job whose Airtable PATCH returns 422
with no deadline interference answers 500, the artifact is gone, and the
deletion precedes the response. -/
theorem c2_witness :
    (handler
      ⟨some "tok", ⟨"https://x", FetchOutcome.httpErr 422 "boom", 1700000000000⟩,
        RenderOutcome.ok [37], none⟩
      ⟨some "tok", some "<p>ok</p>", some "rec1", some "siteA"⟩ ⟨false, ∅⟩).1.status = 500
    ∧ deletedBeforeResponse
        (handler
          ⟨some "tok", ⟨"https://x", FetchOutcome.httpErr 422 "boom", 1700000000000⟩,
            RenderOutcome.ok [37], none⟩
          ⟨some "tok", some "<p>ok</p>", some "rec1", some "siteA"⟩ ⟨false, ∅⟩).2.2
        (generateFileName 1700000000000 "siteA") = true :=
  ⟨(c2_upload_failure_deletes_artifact
      ⟨some "tok", ⟨"https://x", FetchOutcome.httpErr 422 "boom", 1700000000000⟩,
        RenderOutcome.ok [37], none⟩
      ⟨some "tok", some "<p>ok</p>", some "rec1", some "siteA"⟩ ⟨false, ∅⟩
      (by decide) (by decide) (by decide) (by decide) [37] (by decide)
      (by decide) (by decide)).1,
   (c2_upload_failure_deletes_artifact
      ⟨some "tok", ⟨"https://x", FetchOutcome.httpErr 422 "boom", 1700000000000⟩,
        RenderOutcome.ok [37], none⟩
      ⟨some "tok", some "<p>ok</p>", some "rec1", some "siteA"⟩ ⟨false, ∅⟩
      (by decide) (by decide) (by decide) (by decide) [37] (by decide)
      (by decide) (by decide)).2.2 rfl⟩

/-- Counterexample for C5: the claim says the deadline cancels the in-flight
stage rather than letting it run to natural completion, but when the deadline
fires while the upload is in flight (after 4 pipeline events) the handler
sends the timeout response and the upload still completes naturally
afterwards: the deferred-cleanup arming happens after the responded event and
the artifact file is still present when the response goes out. -/
theorem c5_counterexample_no_cancellation :
    (handler
      ⟨some "tok", ⟨"https://x", FetchOutcome.ok2xx, 1700000000000⟩,
        RenderOutcome.ok [37], some 4⟩
      ⟨some "tok", some "<p>ok</p>", some "rec1", some "siteA"⟩ ⟨false, ∅⟩).1 =
      { status := 500, body := timeoutMsg }
    ∧ postResponseEvents
        (handler
          ⟨some "tok", ⟨"https://x", FetchOutcome.ok2xx, 1700000000000⟩,
            RenderOutcome.ok [37], some 4⟩
          ⟨some "tok", some "<p>ok</p>", some "rec1", some "siteA"⟩ ⟨false, ∅⟩).2.2 =
        [Event.cleanupScheduled "Report-20231114-siteA-1700000000000.pdf"]
    ∧ "Report-20231114-siteA-1700000000000.pdf" ∈
        (handler
          ⟨some "tok", ⟨"https://x", FetchOutcome.ok2xx, 1700000000000⟩,
            RenderOutcome.ok [37], some 4⟩
          ⟨some "tok", some "<p>ok</p>", some "rec1", some "siteA"⟩ ⟨false, ∅⟩).2.1.files := by
  decide

/-- Claim C5 (amended): when the overall 45-second deadline fires while the
pipeline is in flight (after k of its events, whatever the stage), the client
receives the timeout-classified 500 response; but the in-flight stage is not
cancelled: the remaining pipeline events all still happen, after the
response, and the final filesystem is exactly the one the pipeline reaches by
running to natural completion, whose own paths (page close, failure cleanup,
deferred deletion) do the reclaiming. -/
theorem c5_timeout_response_pipeline_continues (env : Env) (req : Request)
    (fs : FS) (k : Nat)
    (hAuth : req.xAuthToken = env.internalAuthToken)
    (hH : falsy req.htmlContent = false) (hR : falsy req.recordId = false)
    (hL : falsy req.location = false)
    (hd : env.deadlinePos = some k)
    (hk : k < (pipeline env (req.htmlContent.getD "") (req.recordId.getD "")
      (req.location.getD "") fs).2.2.length) :
    (handler env req fs).1 = { status := 500, body := timeoutMsg }
    ∧ (handler env req fs).2.1 =
        (pipeline env (req.htmlContent.getD "") (req.recordId.getD "")
          (req.location.getD "") fs).2.1
    ∧ (handler env req fs).2.2 =
        (pipeline env (req.htmlContent.getD "") (req.recordId.getD "")
            (req.location.getD "") fs).2.2.take k
          ++ [Event.responded 500]
          ++ (pipeline env (req.htmlContent.getD "") (req.recordId.getD "")
            (req.location.getD "") fs).2.2.drop k
    ∧ ∀ e, e ∈ (pipeline env (req.htmlContent.getD "") (req.recordId.getD "")
        (req.location.getD "") fs).2.2 → e ∈ (handler env req fs).2.2 := by
  have hnn : ¬ req.xAuthToken ≠ env.internalAuthToken := by simp [hAuth]
  have hval : (falsy req.htmlContent || falsy req.recordId ||
      falsy req.location) = false := by
    simp [hH, hR, hL]
  refine ⟨?_, ?_, ?_, ?_⟩
  · simp [handler, hnn, hval, hd, hk]
  · simp [handler, hnn, hval, hd, hk]
  · simp [handler, hnn, hval, hd, hk]
  · intro e he
    simp only [handler, if_neg hnn, hval, Bool.false_eq_true, if_false, hd,
      if_pos hk]
    rw [← List.take_append_drop k (pipeline env (req.htmlContent.getD "")
      (req.recordId.getD "") (req.location.getD "") fs).2.2] at he
    rcases List.mem_append.mp he with h | h
    · exact List.mem_append.mpr (Or.inl (List.mem_append.mpr (Or.inl h)))
    · exact List.mem_append.mpr (Or.inr h)

/-- Witness for C5 (amended): with the deadline firing after 4 pipeline
events of a concrete successful run, the response is the timeout failure. -/
theorem c5_witness :
    (handler
      ⟨some "tok", ⟨"https://x", FetchOutcome.ok2xx, 1700000000000⟩,
        RenderOutcome.ok [37], some 4⟩
      ⟨some "tok", some "<p>ok</p>", some "rec1", some "siteA"⟩ ⟨false, ∅⟩).1 =
      { status := 500, body := timeoutMsg } :=
  (c5_timeout_response_pipeline_continues
    ⟨some "tok", ⟨"https://x", FetchOutcome.ok2xx, 1700000000000⟩,
      RenderOutcome.ok [37], some 4⟩
    ⟨some "tok", some "<p>ok</p>", some "rec1", some "siteA"⟩ ⟨false, ∅⟩ 4
    (by decide) (by decide) (by decide) (by decide) (by decide) (by decide)).1

end PdfWorker
